import Mathlib

/-!
Shallow embedding of the protocol-multiplexing front door of the
grpc_greeter_helloworld repository (src/main.go together with the generated
service code under src/grpc/greeter/helloworld) and proofs of the specified
properties: request classification, the validation and trace interceptor
stages, span lifecycle in the gateway branch, and the greeter methods.
-/

namespace Greeter

/-- Go strings.Contains: substr occurs contiguously inside s. -/
def strContains (s substr : String) : Bool :=
  decide (substr.toList <:+: s.toList)

/-- one inbound HTTP request as the multiplexer sees it: the HTTP major
version the transport reports and the header set (keys stored in canonical
MIME form, as Go net/http keeps them). -/
structure HTTPRequest where
  protoMajor : Nat
  headers : List (String × String)

/-- Go http.Header.Get: the first value stored under the (canonical) key,
or the empty string when the key is absent. -/
def headerGet (hs : List (String × String)) (key : String) : String :=
  match hs.find? (fun p => p.fst == key) with
  | some p => p.snd
  | none => ""

/-- the two backend handlers the multiplexer can dispatch to. -/
inductive Route
  | native
  | gateway
deriving DecidableEq

/-- grpcHandlerFunc, routing decision (src/main.go lines 141-171): the
request is handled by the native gRPC server iff ProtoMajor is 2 and the
Content-Type header has application/grpc as a substring; every other
request is handled by the gateway handler. The h2c wrapper only enables
cleartext HTTP/2 and does not change the decision. -/
def grpcHandlerFunc (r : HTTPRequest) : Route :=
  if r.protoMajor == 2 && strContains (headerGet r.headers "Content-Type") "application/grpc" then
    Route.native
  else
    Route.gateway

/-- gRPC canonical status codes this development needs. -/
inductive GrpcCode
  | ok
  | invalidArgument
  | unimplemented
  | internal
  | unknown
deriving DecidableEq

/-- a Go error value as the chain handles it: either a gRPC status error
carrying a canonical code (built by status.Errorf) or a plain error that
carries only a message, which is the shape a generated ValidateAll
returns. -/
inductive GoError
  | statusErr (code : GrpcCode) (msg : String)
  | plainErr (msg : String)
deriving DecidableEq

/-- the canonical code a terminal error surfaces with on the wire: grpc-go
status.FromError, applied by the framework around the interceptors wired in
src/main.go, keeps the code of a status error and maps any other error to
Unknown. -/
def GoError.grpcCode : GoError → GrpcCode
  | .statusErr c _ => c
  | .plainErr _ => GrpcCode.unknown

/-- HelloRequest message (src/grpc/greeter/helloworld/hello_world.pb.go,
line 148): one string field Name. -/
structure HelloRequest where
  name : String
deriving DecidableEq

/-- HelloReply message (src/grpc/greeter/helloworld/hello_world.pb.go,
line 196): the Message string plus the optional structured Data (ListValue)
and Obj (Struct) payloads, modelled by their presence only. -/
structure HelloReply where
  message : String
  dataList : Option Unit
  obj : Option Unit
deriving DecidableEq

/-- UserReq message (src/grpc/greeter/helloworld/hello_world.pb.go,
line 29): one uint64 field Id. -/
structure UserReq where
  id : Nat
deriving DecidableEq

/-- UserRes message (src/grpc/greeter/helloworld/hello_world.pb.go,
line 76). -/
structure UserRes where
  id : Nat
  name : String
  email : String
  phone : String
deriving DecidableEq

/-- the response messages of the Greeter service. -/
inductive RespMsg
  | helloReply (r : HelloReply)
  | emptyMsg
  | userRes (r : UserRes)
deriving DecidableEq

/-- the possible payloads of a decoded request interface value. -/
inductive ReqPayload
  | helloRequest (r : HelloRequest)
  | emptyMsg
  | userReq (r : UserReq)
  | otherMsg (tag : String)
deriving DecidableEq

/-- a decoded request message as the interceptor receives it (a Go
interface value): the payload together with the outcome of the dynamic
probe req.(Validator) from src/main.go line 56 — none models a dynamic
type that does not implement ValidateAll, and some e models one that does,
e being the error its ValidateAll() returns (none for a nil error). -/
structure ReqMsg where
  payload : ReqPayload
  validator : Option (Option GoError)
deriving DecidableEq

/-- the (response, error) pair a unary invocation returns. -/
structure UnaryResult where
  resp : Option RespMsg
  err : Option GoError
deriving DecidableEq

/-- observable effects of one invocation, recorded in order of
occurrence. -/
inductive Event
  | serverSpanStarted
  | serverSpanFinished
  | clientSpanStarted
  | clientSpanFinished
  | validationEntered
  | validateAllCalled
  | handlerRan
deriving DecidableEq

/-- a unary method body, what grpc.UnaryHandler closes over in the
generated handler functions of hello_world_grpc.pb.go. -/
abbrev Handler := ReqMsg → UnaryResult

/-- ServerValidationUnaryInterceptor (src/main.go lines 54-64): probe the
request for the Validator capability; when the probe succeeds and
ValidateAll returns a non-nil error, return (nil, err) without calling the
handler; otherwise call the handler and return its result. The event list
records the effects in order: stage entry, the ValidateAll invocation when
the probe succeeded, and the handler invocation when it ran. -/
def ServerValidationUnaryInterceptor (req : ReqMsg) (handler : Handler) :
    UnaryResult × List Event :=
  match req.validator with
  | some (some e) =>
      (⟨none, some e⟩, [Event.validationEntered, Event.validateAllCalled])
  | some none =>
      (handler req, [Event.validationEntered, Event.validateAllCalled, Event.handlerRan])
  | none =>
      (handler req, [Event.validationEntered, Event.handlerRan])

/-- Modelled from the spec: grpc_opentracing.UnaryServerInterceptor, the
trace stage installed first in grpc.ChainUnaryInterceptor (src/main.go
lines 102-109); the library body is not part of this repository. Spec
section 4.2: on entry start a span (a child of the extracted parent when
one exists, else a fresh root), run the inner stage, and finish the span
on every exit path. -/
def traceUnaryServerInterceptor (inner : ReqMsg → UnaryResult × List Event)
    (req : ReqMsg) : UnaryResult × List Event :=
  match inner req with
  | (r, evs) => (r, Event.serverSpanStarted :: (evs ++ [Event.serverSpanFinished]))

/-- Modelled from the spec: grpc_opentracing.UnaryClientInterceptor,
attached to the dial options of the gateway loopback client (src/main.go
lines 115-122); the library body is not part of this repository. It starts
a client span around the outbound call and finishes it when the call
returns. -/
def traceUnaryClientInterceptor (invoke : ReqMsg → UnaryResult × List Event)
    (req : ReqMsg) : UnaryResult × List Event :=
  match invoke req with
  | (r, evs) => (r, Event.clientSpanStarted :: (evs ++ [Event.clientSpanFinished]))

/-- the server-side chain exactly as composed in src/main.go lines 102-109
by grpc.ChainUnaryInterceptor: the trace stage listed first is outermost
and wraps the validation stage, which wraps the method body. -/
def serverChain (handler : Handler) (req : ReqMsg) : UnaryResult × List Event :=
  traceUnaryServerInterceptor (fun q => ServerValidationUnaryInterceptor q handler) req

/-- a native call: one inbound hop through the server chain. -/
def nativeCall (handler : Handler) (req : ReqMsg) : UnaryResult × List Event :=
  serverChain handler req

/-- a gateway-originated call: the gateway re-issues the RPC through the
loopback client whose only interceptor is the client trace stage
(src/main.go lines 115-123), and the call then enters the server chain as
an ordinary inbound hop. -/
def gatewayCall (handler : Handler) (req : ReqMsg) : UnaryResult × List Event :=
  traceUnaryClientInterceptor (serverChain handler) req

/-- the interceptor stages installed at the outbound client hop of the
gateway (src/main.go lines 115-122): only the trace client stage; no
validation interceptor is attached on the client side. -/
def clientHopStages : List Event :=
  [Event.clientSpanStarted, Event.clientSpanFinished]

/-- SayHello (src/main.go lines 41-44): the reply Message is the request
Name concatenated with the literal " world"; the structured Data and Obj
fields are left unset and the returned error is nil. -/
def server.SayHello (req : HelloRequest) : Option HelloReply × Option GoError :=
  (some ⟨req.name ++ " world", none, none⟩, none)

/-- Logout (src/main.go lines 47-49): returns an empty message and a nil
error. -/
def server.Logout : Option RespMsg × Option GoError :=
  (some RespMsg.emptyMsg, none)

/-- UnimplementedGreeterServer.GetUser (generated
src/grpc/greeter/helloworld/hello_world_grpc.pb.go lines 97-99):
unconditionally returns nil and status.Errorf(codes.Unimplemented,
"method GetUser not implemented"). -/
def UnimplementedGreeterServer.GetUser (_ : UserReq) :
    Option UserRes × Option GoError :=
  (none, some (GoError.statusErr GrpcCode.unimplemented "method GetUser not implemented"))

/-- GetUser on the registered server type (src/main.go lines 28-30): the
server struct embeds UnimplementedGreeterServer and overrides only
SayHello and Logout, so Go method promotion resolves GetUser to the
embedded default implementation. -/
def server.GetUser : UserReq → Option UserRes × Option GoError :=
  UnimplementedGreeterServer.GetUser

/-- the SayHello unary handler as the generated _Greeter_SayHello_Handler
hands it to the interceptor chain: cast the request to HelloRequest and
run the server method. The cast never fails for requests the framework
decodes; a mismatched payload is modelled as an internal error. -/
def sayHelloHandler : Handler := fun req =>
  match req.payload with
  | ReqPayload.helloRequest r =>
      match server.SayHello r with
      | (rep, e) => ⟨rep.map RespMsg.helloReply, e⟩
  | _ => ⟨none, some (GoError.statusErr GrpcCode.internal "type assertion failed")⟩

/-- the GetUser unary handler as the generated _Greeter_GetUser_Handler
hands it to the interceptor chain. -/
def getUserHandler : Handler := fun req =>
  match req.payload with
  | ReqPayload.userReq r =>
      match server.GetUser r with
      | (res, e) => ⟨res.map RespMsg.userRes, e⟩
  | _ => ⟨none, some (GoError.statusErr GrpcCode.internal "type assertion failed")⟩

/-- a decoded HelloRequest as an interface value: the generated type in
src/grpc/greeter/helloworld/hello_world.pb.go has no ValidateAll method,
so the Validator probe fails. -/
def HelloRequest.asReq (r : HelloRequest) : ReqMsg :=
  ⟨ReqPayload.helloRequest r, none⟩

/-- a decoded UserReq as an interface value: the generated type has no
ValidateAll method, so the Validator probe fails. -/
def UserReq.asReq (r : UserReq) : ReqMsg :=
  ⟨ReqPayload.userReq r, none⟩

/-- outcome of the opentracing Extract call on the inbound request headers
(src/main.go lines 150-152). -/
inductive ExtractResult
  | ok
  | notFound
  | otherErr
deriving DecidableEq

/-- observable outcome of the gateway branch of grpcHandlerFunc for one
request (src/main.go lines 147-169). -/
structure GatewayOutcome where
  spanStarted : Bool
  spanHasParent : Bool
  spanFinished : Bool
  traceHeader : Option String
  served : Bool
deriving DecidableEq

/-- the gateway branch of grpcHandlerFunc (src/main.go lines 147-169):
extract a parent context from the headers; only when extraction succeeds
(ok) or fails with ErrSpanContextNotFound does the handler start a
ServeHTTP span — a child of the parent when one was extracted, a root span
otherwise — write the Jaeger trace id into the response header when the
span context is a jaeger.SpanContext, and defer the span finish; in every
case the request is then served by otherHandler. spanCtxIsJaeger is the
outcome of the type assertion on the span context and traceID is the trace
id of the started span. -/
def gatewayBranch (extract : ExtractResult) (spanCtxIsJaeger : Bool)
    (traceID : String) : GatewayOutcome :=
  if extract == ExtractResult.ok || extract == ExtractResult.notFound then
    ⟨true, extract == ExtractResult.ok, true,
      if spanCtxIsJaeger then some traceID else none, true⟩
  else
    ⟨false, false, false, none, true⟩

/-- C1: the multiplexer routes a request to the native gRPC server iff the
transport reports HTTP major version 2 and the declared Content-Type has
application/grpc as a substring; every other request goes to the gateway
handler, and since Route has exactly the two mutually exclusive values,
each request is dispatched to exactly one of the two handlers. -/
theorem C1_mux_routing (r : HTTPRequest) :
    (grpcHandlerFunc r = Route.native ↔
      (r.protoMajor = 2 ∧
        strContains (headerGet r.headers "Content-Type") "application/grpc" = true))
    ∧ (grpcHandlerFunc r = Route.gateway ↔
      ¬(r.protoMajor = 2 ∧
        strContains (headerGet r.headers "Content-Type") "application/grpc" = true)) := by
  have hb : (r.protoMajor == 2 &&
      strContains (headerGet r.headers "Content-Type") "application/grpc") = true ↔
      (r.protoMajor = 2 ∧
        strContains (headerGet r.headers "Content-Type") "application/grpc" = true) := by
    simp [Bool.and_eq_true]
  by_cases h : (r.protoMajor == 2 &&
      strContains (headerGet r.headers "Content-Type") "application/grpc") = true
  · rw [grpcHandlerFunc, if_pos h]
    simp [hb.mp h]
  · rw [grpcHandlerFunc, if_neg h]
    rw [hb] at h
    simp [h]

/-- C6: SayHello replies with the request name concatenated with the
literal " world" and no structured payload, for every name, through the
full server chain; the gateway path returns exactly the native result; and
at name Ada the message is Ada world. -/
theorem C6_sayHello_message :
    (∀ name : String,
      (nativeCall sayHelloHandler (HelloRequest.asReq ⟨name⟩)).1
        = ⟨some (RespMsg.helloReply ⟨name ++ " world", none, none⟩), none⟩
      ∧ (gatewayCall sayHelloHandler (HelloRequest.asReq ⟨name⟩)).1
        = (nativeCall sayHelloHandler (HelloRequest.asReq ⟨name⟩)).1)
    ∧ (nativeCall sayHelloHandler (HelloRequest.asReq ⟨"Ada"⟩)).1.resp
        = some (RespMsg.helloReply ⟨"Ada world", none, none⟩) :=
  ⟨fun _ => ⟨rfl, rfl⟩, rfl⟩

/-- C10: GetUser on the registered server resolves to the embedded
UnimplementedGreeterServer default: for every id it returns a nil response
and the Unimplemented status error, also when invoked through the full
server chain, and the surfaced canonical code is Unimplemented. -/
theorem C10_getUser_unimplemented (id : Nat) :
    server.GetUser ⟨id⟩
      = (none, some (GoError.statusErr GrpcCode.unimplemented "method GetUser not implemented"))
    ∧ (serverChain getUserHandler (UserReq.asReq ⟨id⟩)).1
      = ⟨none, some (GoError.statusErr GrpcCode.unimplemented "method GetUser not implemented")⟩
    ∧ (serverChain getUserHandler (UserReq.asReq ⟨id⟩)).1.err.map GoError.grpcCode
      = some GrpcCode.unimplemented :=
  ⟨rfl, rfl, rfl⟩

/-- C2 counterexample: a request whose dynamic type implements Validator
and whose ValidateAll returns a plain (non-status) error — the shape a
generated validator produces. The chain short-circuits, but the terminal
error is that plain error itself, whose surfaced canonical code is
Unknown, not InvalidArgument, so the claim that such a call terminates
with an invalid-argument-kind error is false at this input. -/
theorem C2_counterexample :
    (serverChain sayHelloHandler
        ⟨ReqPayload.otherMsg "probe", some (some (GoError.plainErr "invalid name"))⟩).2.count
      Event.handlerRan = 0
    ∧ (serverChain sayHelloHandler
        ⟨ReqPayload.otherMsg "probe", some (some (GoError.plainErr "invalid name"))⟩).1.err.map
      GoError.grpcCode = some GrpcCode.unknown
    ∧ ¬((serverChain sayHelloHandler
        ⟨ReqPayload.otherMsg "probe", some (some (GoError.plainErr "invalid name"))⟩).1.err.map
      GoError.grpcCode = some GrpcCode.invalidArgument) :=
  ⟨rfl, rfl, by decide⟩

/-- C2 (amended): whenever the dynamic Validator probe succeeds and
ValidateAll returns an error e, the chain short-circuits — the handler is
never invoked (zero handler invocations) and the response is nil — and the
call terminates with exactly that validation error e as its terminal
error; the interceptor does not wrap it in an invalid-argument status, so
the surfaced code is the code of e itself. -/
theorem C2_validation_short_circuit (req : ReqMsg) (handler : Handler)
    (e : GoError) (h : req.validator = some (some e)) :
    (serverChain handler req).1 = ⟨none, some e⟩
    ∧ (serverChain handler req).2.count Event.handlerRan = 0
    ∧ (serverChain handler req).1.err.map GoError.grpcCode = some e.grpcCode := by
  rcases req with ⟨p, v⟩
  cases h
  exact ⟨rfl, rfl, rfl⟩

/-- C2 witness: the amended short-circuit theorem applied at a concrete
failing request. -/
theorem C2_validation_short_circuit_witness :
    (serverChain getUserHandler
        ⟨ReqPayload.otherMsg "w", some (some (GoError.plainErr "bad field"))⟩).1
      = ⟨none, some (GoError.plainErr "bad field")⟩
    ∧ (serverChain getUserHandler
        ⟨ReqPayload.otherMsg "w", some (some (GoError.plainErr "bad field"))⟩).2.count
      Event.handlerRan = 0
    ∧ (serverChain getUserHandler
        ⟨ReqPayload.otherMsg "w", some (some (GoError.plainErr "bad field"))⟩).1.err.map
      GoError.grpcCode = some (GoError.plainErr "bad field").grpcCode :=
  C2_validation_short_circuit _ getUserHandler (GoError.plainErr "bad field") rfl

/-- C3: a request whose dynamic type does not implement the Validator
capability never short-circuits and is never an error by itself: the chain
returns exactly the result of the handler and the handler runs exactly
once. -/
theorem C3_no_capability_runs_handler (req : ReqMsg) (handler : Handler)
    (h : req.validator = none) :
    (serverChain handler req).1 = handler req
    ∧ (serverChain handler req).2.count Event.handlerRan = 1 := by
  rcases req with ⟨p, v⟩
  cases h
  exact ⟨rfl, rfl⟩

/-- C3 witness: the no-capability theorem applied to a concrete
HelloRequest, whose generated type has no ValidateAll method. -/
theorem C3_no_capability_runs_handler_witness :
    (serverChain sayHelloHandler (HelloRequest.asReq ⟨"Bob"⟩)).1
      = sayHelloHandler (HelloRequest.asReq ⟨"Bob"⟩)
    ∧ (serverChain sayHelloHandler (HelloRequest.asReq ⟨"Bob"⟩)).2.count
      Event.handlerRan = 1 :=
  C3_no_capability_runs_handler (HelloRequest.asReq ⟨"Bob"⟩) sayHelloHandler rfl

/-- C4: every invocation through the server chain starts exactly one
server span and finishes exactly one, on every exit path — validation
rejection, validation success, missing capability, handler success or
handler error — and the gateway HTTP branch never leaks or double-finishes
its span either: it finishes its ServeHTTP span exactly as often as it
starts it. -/
theorem C4_span_balance (req : ReqMsg) (handler : Handler)
    (e : ExtractResult) (b : Bool) (tid : String) :
    (serverChain handler req).2.count Event.serverSpanStarted = 1
    ∧ (serverChain handler req).2.count Event.serverSpanFinished = 1
    ∧ (gatewayBranch e b tid).spanFinished = (gatewayBranch e b tid).spanStarted := by
  rcases req with ⟨p, v⟩
  rcases v with _ | (_ | ev) <;> cases e <;>
    exact ⟨rfl, rfl, rfl⟩

/-- C5 counterexample: when trace extraction fails with an error other
than ErrSpanContextNotFound — a parent context present but unparsable —
the gateway branch starts no span at all, so it does not fall back to a
fresh root span as claimed, although the request is still served. -/
theorem C5_counterexample :
    (gatewayBranch ExtractResult.otherErr true "4bf92f35").served = true
    ∧ ¬((gatewayBranch ExtractResult.otherErr true "4bf92f35").spanStarted = true) := by
  decide

/-- C5 (amended): a trace-extraction failure is never fatal — the request
is served by the gateway handler in every case; when the parent context is
absent (the not-found error) the branch falls back to starting a fresh
root span, but when extraction fails with any other error no span is
started at all. -/
theorem C5_extraction_fallback (b : Bool) (tid : String) :
    ((gatewayBranch ExtractResult.notFound b tid).served = true
      ∧ (gatewayBranch ExtractResult.notFound b tid).spanStarted = true
      ∧ (gatewayBranch ExtractResult.notFound b tid).spanHasParent = false)
    ∧ ((gatewayBranch ExtractResult.otherErr b tid).served = true
      ∧ (gatewayBranch ExtractResult.otherErr b tid).spanStarted = false)
    ∧ (∀ e : ExtractResult, (gatewayBranch e b tid).served = true) := by
  refine ⟨⟨rfl, rfl, rfl⟩, ⟨rfl, rfl⟩, fun e => ?_⟩
  cases e <;> rfl

/-- C7 counterexample: the full interceptor chain is not incurred twice by
a gateway-originated call — the outbound client hop installs only the
trace client interceptor and no validation interceptor, so the validation
stage runs exactly once (at the inbound server hop), not twice, and the
client hop stage list does not contain the validation stage. -/
theorem C7_counterexample :
    (gatewayCall sayHelloHandler (HelloRequest.asReq ⟨"Ada"⟩)).2.count
      Event.validationEntered = 1
    ∧ ¬((gatewayCall sayHelloHandler (HelloRequest.asReq ⟨"Ada"⟩)).2.count
      Event.validationEntered = 2)
    ∧ Event.validationEntered ∉ clientHopStages :=
  ⟨rfl, by decide, by decide⟩

/-- C7 (amended): the full interceptor chain (trace stage plus validation
stage) runs exactly once per inbound RPC, at the server hop; a
gateway-originated call additionally passes through the client-side trace
stage at its outbound hop, so the trace stage is incurred at both hops
while the validation stage runs exactly once. -/
theorem C7_chain_per_hop (req : ReqMsg) (handler : Handler) :
    ((nativeCall handler req).2.count Event.serverSpanStarted = 1
      ∧ (nativeCall handler req).2.count Event.validationEntered = 1
      ∧ (nativeCall handler req).2.count Event.clientSpanStarted = 0)
    ∧ ((gatewayCall handler req).2.count Event.clientSpanStarted = 1
      ∧ (gatewayCall handler req).2.count Event.serverSpanStarted = 1
      ∧ (gatewayCall handler req).2.count Event.validationEntered = 1) := by
  rcases req with ⟨p, v⟩
  rcases v with _ | (_ | ev) <;>
    exact ⟨⟨rfl, rfl, rfl⟩, ⟨rfl, rfl, rfl⟩⟩

/-- C8: on every invocation the trace stage wraps the validation stage,
which wraps the method body: the event trace begins with the server span
start, ends with the server span finish, contains exactly one of each, and
the validation stage always runs, so the span lifetime strictly covers
validation and handler execution and neither ever runs outside an active
span. -/
theorem C8_stage_nesting (req : ReqMsg) (handler : Handler) :
    (serverChain handler req).2.head? = some Event.serverSpanStarted
    ∧ (serverChain handler req).2.getLast? = some Event.serverSpanFinished
    ∧ (serverChain handler req).2.count Event.serverSpanStarted = 1
    ∧ (serverChain handler req).2.count Event.serverSpanFinished = 1
    ∧ Event.validationEntered ∈ (serverChain handler req).2 := by
  rcases req with ⟨p, v⟩
  rcases v with _ | (_ | ev) <;>
    exact ⟨rfl, rfl, rfl, rfl, by
      simp [serverChain, traceUnaryServerInterceptor, ServerValidationUnaryInterceptor]⟩

/-- C9: with the configured Jaeger tracer the type assertion on the span
context succeeds, and the gateway branch then writes the Jaeger
trace-context response header carrying the trace id of the span exactly
when a span was started; and whenever no span is started (extraction
failed with an error other than not-found) no header is written, whatever
the span context type would have been. -/
theorem C9_trace_header (e : ExtractResult) (b : Bool) (tid : String) :
    ((gatewayBranch e true tid).traceHeader
      = (if (gatewayBranch e true tid).spanStarted then some tid else none))
    ∧ (gatewayBranch ExtractResult.otherErr b tid).traceHeader = none := by
  cases e <;> exact ⟨rfl, rfl⟩
